import Mathlib

/-!
Verification of the goforge watch subsystem (cmd/watch.go): the file-event
filter (`AdvancedWatcher.shouldIgnoreEvent`), the debounced restart controller
(`Debouncer`, `watchLoop`, `smartRestart`), and the process/port lifecycle
manager (`ProcessManager`, `PortManager`).

Strings are embedded as `List Char` (the `data` field of a Lean `String`),
and Go's `path/filepath` and `strings` helpers used by the watcher are
translated directly.  Paths are the clean, project-root-relative paths that
`filepath.Rel(projectRoot, event.Name)` produces on a Unix separator.
-/

namespace GoForge

/-- Strings as lists of characters. -/
abbrev Str := List Char

/-- Embedding of Go `strings.TrimSuffix(s, suffix)`: drops `suffix` from the
end of `s` when present, otherwise returns `s` unchanged. -/
def trimSuffix (s suffix : Str) : Str :=
  if suffix.isSuffixOf s then s.take (s.length - suffix.length) else s

/-- Fuel-driven core of Go `path/filepath.Match` restricted to the pattern
features the watcher's patterns use (literals, `?`, `*`; no character classes
or escapes).  A `*` matches any sequence of non-separator characters, so it
never crosses a `/`; consecutive stars (`**`) behave like a single `*`.
The pattern must consume the entire name. -/
def matchFuel : Nat → Str → Str → Bool
  | 0, _, _ => false
  | _ + 1, [], [] => true
  | _ + 1, [], _ :: _ => false
  | k + 1, '*' :: p, s =>
      matchFuel k p s ||
      (match s with
       | [] => false
       | c :: s1 => (c != '/') && matchFuel k ('*' :: p) s1)
  | _ + 1, '?' :: _, [] => false
  | k + 1, '?' :: p, c :: s => (c != '/') && matchFuel k p s
  | _ + 1, _ :: _, [] => false
  | k + 1, c :: p, d :: s => (c == d) && matchFuel k p s

/-- Embedding of Go `filepath.Match(pattern, name)` (for the class of
patterns above; the fuel bound exceeds every recursion depth). -/
def filepathMatch (pattern name : Str) : Bool :=
  matchFuel (pattern.length + name.length + 1) pattern name

/-- Embedding of `strings.Split(filepath.Dir(relPath), string(filepath.Separator))`
for a clean relative file path: the parent directory's components, which is
`["."]` when the path has a single component (Go `filepath.Dir` returns `"."`). -/
def dirComponents (relPath : Str) : List Str :=
  let segs := relPath.splitOn '/'
  if segs.length ≤ 1 then [['.']] else segs.dropLast

/-- The subset of `fsnotify.Op` bits inspected by the watcher. -/
structure FsnotifyOp where
  write : Bool
  create : Bool
  remove : Bool
  rename : Bool
  chmod : Bool
deriving DecidableEq

/-- A plain write event. -/
def writeOp : FsnotifyOp := ⟨true, false, false, false, false⟩

/-- One iteration of the ignore-pattern loop body in
`AdvancedWatcher.shouldIgnoreEvent`: the pattern matches the relative path
outright, or some component of the parent directory matches the pattern with
a trailing `/**` trimmed off. -/
def ignoreMatches (pattern relPath : Str) : Bool :=
  filepathMatch pattern relPath ||
  (dirComponents relPath).any (fun dir => filepathMatch (trimSuffix pattern "/**".data) dir)

/-- One iteration of the watch-pattern loop body in
`AdvancedWatcher.shouldIgnoreEvent`: the pattern matches the relative path,
or the pattern has the form `**/*<ext>` and the relative path ends in `<ext>`
(`strings.TrimPrefix(pattern, "**/*")`). -/
def watchMatches (pattern relPath : Str) : Bool :=
  filepathMatch pattern relPath ||
  ("**/*".data.isPrefixOf pattern && (pattern.drop 4).isSuffixOf relPath)

/-- Embedding of `AdvancedWatcher.shouldIgnoreEvent` (cmd/watch.go), after the
`filepath.Rel` step: events that are neither writes nor creates are ignored;
then the ignore patterns are tried (full-path match or parent-directory
component match); then the watch patterns (full-path match or `**/*`-extension
suffix match) mark the event relevant; everything else is ignored by default. -/
def shouldIgnoreEvent (ignorePatterns watchPatterns : List Str)
    (op : FsnotifyOp) (relPath : Str) : Bool :=
  if !op.write && !op.create then true
  else if ignorePatterns.any (fun pattern => ignoreMatches pattern relPath) then true
  else if watchPatterns.any (fun pattern => watchMatches pattern relPath) then false
  else true

/-- The default ignore patterns installed by `loadProjectConfig` when
goforge.yml supplies none. -/
def defaultIgnorePatterns : List Str :=
  ["**/*_test.go".data, "dist/**".data, "vendor/**".data, ".git/**".data,
   "node_modules/**".data, "**/*.tmp".data, "**/*.log".data]

/-- The default watch patterns installed by `loadProjectConfig` when
goforge.yml supplies none. -/
def defaultWatchPatterns : List Str :=
  ["**/*.go".data, "**/*.yml".data, "**/*.yaml".data, "**/*.json".data]

/-- Fuel-driven core of glob matching as the specification describes it
(stated from the spec's words, for comparison with `filepathMatch`): shell
glob where a `**` component matches arbitrary path depth, i.e. any sequence
of characters including separators, while a single `*` stays within one
segment. -/
def specMatchFuel : Nat → Str → Str → Bool
  | 0, _, _ => false
  | _ + 1, [], [] => true
  | _ + 1, [], _ :: _ => false
  | k + 1, '*' :: '*' :: p, s =>
      specMatchFuel k p s ||
      (match s with
       | [] => false
       | _ :: s1 => specMatchFuel k ('*' :: '*' :: p) s1)
  | k + 1, '*' :: p, s =>
      specMatchFuel k p s ||
      (match s with
       | [] => false
       | c :: s1 => (c != '/') && specMatchFuel k ('*' :: p) s1)
  | _ + 1, '?' :: _, [] => false
  | k + 1, '?' :: p, c :: s => (c != '/') && specMatchFuel k p s
  | _ + 1, _ :: _, [] => false
  | k + 1, c :: p, d :: s => (c == d) && specMatchFuel k p s

/-- Glob matching with `**` meaning arbitrary path depth, as the spec
describes pattern evaluation. -/
def specDoubleStarMatch (pattern name : Str) : Bool :=
  specMatchFuel (pattern.length + name.length + 1) pattern name

/-- The final name component of a relative path. -/
def baseName (relPath : Str) : Str :=
  (relPath.splitOn '/').getLastD []

/-- The spec's fixed editor/temp-artifact convention, stated from its words
for comparison with the code's filter: dotfiles, `~`-prefixed names,
`.tmp`/`.swp`/`.swo` suffixes, names containing `#`. -/
def editorArtifactName (name : Str) : Bool :=
  ['.'].isPrefixOf name || ['~'].isPrefixOf name ||
  ".tmp".data.isSuffixOf name || ".swp".data.isSuffixOf name ||
  ".swo".data.isSuffixOf name || name.contains '#'

/-! ### Project configuration and the restart sequence

`AdvancedWatcher.loadProjectConfig` reads `server.port` from the sibling
`config/default.yml` via viper; `viper.GetInt` yields `0` when the file or
the key is absent, and the code replaces a zero port by the default `8080`.
`AdvancedWatcher.smartRestart` then runs an unconditional four-step
sequence. -/

/-- Embedding of the port computation in `AdvancedWatcher.loadProjectConfig`:
`declaredServerPort` is the `server.port` value of the sibling application
config, `none` when the config file is unreadable or the key is absent
(`viper.GetInt` then returns `0`). -/
def loadProjectPort (declaredServerPort : Option Nat) : Nat :=
  let p := declaredServerPort.getD 0
  if p = 0 then 8080 else p

/-- The observable steps of `AdvancedWatcher.smartRestart`. -/
inductive RestartStep where
  | stopProc
  | ensurePort (port : Nat) (timeoutSec : Nat)
  | sleepMs (ms : Nat)
  | startProc
deriving DecidableEq

/-- Embedding of `AdvancedWatcher.smartRestart`: stop the current process,
ensure the project port is available (8 second timeout), sleep 500 ms, start
the new process — in that order, with no conditional around any step. -/
def smartRestartSteps (projectPort : Nat) : List RestartStep :=
  [RestartStep.stopProc, RestartStep.ensurePort projectPort 8,
   RestartStep.sleepMs 500, RestartStep.startProc]

/-! ### ProcessManager

`ProcessManager` holds `cmd *exec.Cmd`.  The model tracks the pid held by a
*started* `pm.cmd` (`none` both for `cmd == nil` and for the spawn-failure
case where `cmd.Process == nil` — `Stop`'s guard treats the two alike), the
set of still-live OS processes the manager has spawned, and the ordered log
of signals delivered. -/

/-- A signal delivery recorded by the model: SIGTERM or SIGKILL, aimed at the
process group of `pid` or (fallback) at `pid` alone. -/
inductive Sig where
  | sigterm (pid : Nat) (toGroup : Bool)
  | sigkill (pid : Nat) (toGroup : Bool)
deriving DecidableEq

/-- State of a `ProcessManager` together with the OS facts the claims are
about. -/
structure PMState where
  cmd : Option Nat
  live : List Nat
  signals : List Sig
deriving DecidableEq

/-- Embedding of `ProcessManager.Start`: a fresh context and command are
created and started unconditionally — the current value of `pm.cmd` is never
inspected.  `fresh` is the pid the OS assigns; `spawnOk` tells whether
`cmd.Start()` succeeds.  Returns the new state and `true` when `Start`
returned an error. -/
def pmStart (s : PMState) (fresh : Nat) (spawnOk : Bool) : PMState × Bool :=
  if spawnOk then
    ({ s with cmd := some fresh, live := fresh :: s.live }, false)
  else
    ({ s with cmd := none }, true)

/-- Embedding of `ProcessManager.Stop`: when `pm.cmd == nil || pm.cmd.Process
== nil` it returns `nil` immediately, delivering nothing.  Otherwise it sends
SIGTERM to the process group (falling back to a direct SIGTERM when the group
kill errors), waits up to 3 s, force-kills the group on timeout, waits for the
reap, clears `pm.cmd`, and returns `nil`.  `groupSignalOk` tells whether the
group SIGTERM delivery succeeded and `gracefulWithin3s` whether the child
exited inside the grace period.  The error result is `none` for `nil`. -/
def pmStop (s : PMState) (groupSignalOk gracefulWithin3s : Bool) :
    PMState × Option Unit :=
  match s.cmd with
  | none => (s, none)
  | some pid =>
    let s1 :=
      if groupSignalOk then
        { s with signals := s.signals ++ [Sig.sigterm pid true] }
      else
        { s with signals := s.signals ++ [Sig.sigterm pid true, Sig.sigterm pid false] }
    let s2 :=
      if gracefulWithin3s then s1
      else { s1 with signals := s1.signals ++ [Sig.sigkill pid true] }
    ({ s2 with cmd := none, live := s2.live.erase pid }, none)

/-! ### Debouncer

`Debouncer.Debounce(fn)` stops the pending `time.Timer` (a no-op when it has
already fired) and schedules `fn` to run `duration` later via
`time.AfterFunc`.  The model replays a time-ordered list of calls
`(time, action)`: a pending timer whose fire time has passed by the next call
has executed its action; otherwise the call cancels it.  A timer still
pending after the last call fires. -/

/-- Replay of a sequence of `Debounce` calls against a pending timer
`(fireTime, action)`, returning the actions that execute, in order. -/
def debounceExec (D : Nat) : Option (Nat × Nat) → List (Nat × Nat) → List Nat
  | none, [] => []
  | some (_, a), [] => [a]
  | none, (t, a) :: rest => debounceExec D (some (t + D, a)) rest
  | some (ft, b), (t, a) :: rest =>
      if ft ≤ t then b :: debounceExec D (some (t + D, a)) rest
      else debounceExec D (some (t + D, a)) rest

/-- The actions executed when the given time-ordered `Debounce` calls are
replayed from an idle debouncer. -/
def debounceRun (D : Nat) (calls : List (Nat × Nat)) : List Nat :=
  debounceExec D none calls

/-- Consecutive calls are separated by strictly less than `D`. -/
def gapsLt (D : Nat) : List (Nat × Nat) → Bool
  | (t1, _) :: (t2, a2) :: rest => decide (t2 < t1 + D) && gapsLt D ((t2, a2) :: rest)
  | _ => true

/-- The action of the last call, `a` when there are no further calls. -/
def lastCallAction (a : Nat) : List (Nat × Nat) → Nat
  | [] => a
  | (_, b) :: rest => lastCallAction b rest

/-! ### watchLoop cool-down

`AdvancedWatcher.watchLoop` keeps `lastRestart` (initially 10 s in the past)
and, per relevant event, skips the event when less than 2 s have elapsed
since `lastRestart`; otherwise it debounces the restart.  The debounced
callback sets `lastRestart := time.Now()` at the moment it *begins* and then
runs `smartRestart`, which completes `dur` later.  Times are integers
(milliseconds from loop start). -/

/-- Watch-loop state: `lastRestart` as the code keeps it, the fire time of
the pending debounced restart, and the `(start, completion)` intervals of
the restarts executed so far. -/
structure LoopState where
  lastRestart : Int
  pending : Option Int
  restarts : List (Int × Int)
deriving DecidableEq

/-- Fire the pending debounced restart when its fire time has arrived by
`now`: the callback records `lastRestart` at its start and the restart
completes `dur` later. -/
def firePending (dur : Int) (st : LoopState) (now : Int) : LoopState :=
  match st.pending with
  | some ft =>
      if ft ≤ now then
        { lastRestart := ft, pending := none, restarts := st.restarts ++ [(ft, ft + dur)] }
      else st
  | none => st

/-- Embedding of the per-event body of `watchLoop` for a relevant event at
time `t`: any due debounced restart has fired first; then the event is
dropped when `t - lastRestart < cooldown` (2000 ms in the code), else
`Debouncer.Debounce` replaces the pending restart with one firing at
`t + D`. -/
def handleEvent (D cooldown dur : Int) (st : LoopState) (t : Int) : LoopState :=
  let st1 := firePending dur st t
  if t - st1.lastRestart < cooldown then st1
  else { st1 with pending := some (t + D) }

/-- A restart still pending after the final event fires unconditionally. -/
def flushPending (dur : Int) (st : LoopState) : LoopState :=
  match st.pending with
  | some ft =>
      { lastRestart := ft, pending := none, restarts := st.restarts ++ [(ft, ft + dur)] }
  | none => st

/-- Replay of `watchLoop` over a time-ordered list of relevant-event times:
`lastRestart` starts 10 s in the past (`time.Now().Add(-10*time.Second)`),
each event runs the loop body, and a trailing pending restart fires. -/
def watchRun (D cooldown dur : Int) (events : List Int) : LoopState :=
  flushPending dur (events.foldl (handleEvent D cooldown dur) ⟨-10000, none, []⟩)

/-! ### AdvancedWatcher.Stop

`AdvancedWatcher.Stop` calls `processManager.Stop()` and
`fileWatcher.Close()`; it never touches `aw.debouncer`, whose `time.Timer`
(if armed) therefore stays scheduled and runs its callback when it fires. -/

/-- The watcher state visible to `AdvancedWatcher.Stop`: the process
manager's started pid, whether the fsnotify watcher is open, and the action
id of the armed debouncer timer, if any. -/
structure AWState where
  pmCmd : Option Nat
  watcherOpen : Bool
  pendingAction : Option Nat
deriving DecidableEq

/-- Embedding of `AdvancedWatcher.Stop` (and its alias `Close`): stops the
process manager (clearing its command) and closes the file watcher.  No
statement in the function reads or writes the debouncer. -/
def awStop (s : AWState) : AWState :=
  { s with pmCmd := none, watcherOpen := false }

/-- The actions that still run after the given watcher state is left alone:
an armed `time.AfterFunc` timer that nobody stops fires after its delay and
runs its function. -/
def runsAfter (s : AWState) : List Nat :=
  match s.pendingAction with
  | some a => [a]
  | none => []

/-! ## Theorems -/

/-- C1 counterexample: from a state with a live child (pid 1 started and not
stopped), a further `ProcessManager.Start` does not fail — it returns no
error — and a second child (pid 2) is spawned, leaving both alive. -/
theorem C1_start_while_running_cex :
    (pmStart ⟨some 1, [1], []⟩ 2 true).2 = false ∧
    (pmStart ⟨some 1, [1], []⟩ 2 true).1.live = [2, 1] := by decide

/-- C1 (amended): calling `ProcessManager.Start` while a live child exists
never consults the current state: when the spawn succeeds it returns no
error, adds the fresh child to the live set alongside the old one, and
overwrites the manager's handle with the new child. -/
theorem pmStart_ignores_running_child (s : PMState) (p fresh : Nat)
    (_running : s.cmd = some p) :
    (pmStart s fresh true).2 = false ∧
    (pmStart s fresh true).1.live = fresh :: s.live ∧
    (pmStart s fresh true).1.cmd = some fresh := by
  simp [pmStart]

/-- Witness for `pmStart_ignores_running_child` at the state holding live
child 1, spawning child 2. -/
theorem pmStart_ignores_running_child_witness :
    (pmStart ⟨some 1, [1], []⟩ 2 true).2 = false ∧
    (pmStart ⟨some 1, [1], []⟩ 2 true).1.live = 2 :: [1] ∧
    (pmStart ⟨some 1, [1], []⟩ 2 true).1.cmd = some 2 :=
  pmStart_ignores_running_child ⟨some 1, [1], []⟩ 1 2 rfl

/-- C2 counterexample: with no declared server port the project port defaults
to 8080 and `smartRestart` still calls `EnsurePortAvailable(8080, 8s)`
between `Stop` and `Start` — port reclamation is not skipped. -/
theorem C2_no_declared_port_cex :
    loadProjectPort none = 8080 ∧
    smartRestartSteps (loadProjectPort none) =
      [RestartStep.stopProc, RestartStep.ensurePort 8080 8,
       RestartStep.sleepMs 500, RestartStep.startProc] := by decide

/-- C2 (amended): there is no port-absent configuration — an undeclared or
zero port defaults to 8080 — and the restart sequence always runs
`EnsurePortAvailable(port, 8s)` between `Stop` and `Start`. -/
theorem smartRestart_always_reclaims (d : Option Nat) :
    0 < loadProjectPort d ∧
    smartRestartSteps (loadProjectPort d) =
      [RestartStep.stopProc, RestartStep.ensurePort (loadProjectPort d) 8,
       RestartStep.sleepMs 500, RestartStep.startProc] := by
  refine ⟨?_, rfl⟩
  cases d with
  | none => decide
  | some p =>
      simp only [loadProjectPort, Option.getD]
      split
      · omega
      · omega

/-- Replaying `Debounce` calls against a pending timer that fires strictly
after the first call: when consecutive calls are separated by less than `D`,
each call cancels its predecessor's timer and only the last action runs. -/
theorem debounceExec_pending_last (D : Nat) :
    ∀ (rest : List (Nat × Nat)) (t a : Nat),
      gapsLt D ((t, a) :: rest) = true →
      debounceExec D (some (t + D, a)) rest = [lastCallAction a rest] := by
  intro rest
  induction rest with
  | nil => intro t a _; rfl
  | cons hd tl ih =>
      intro t a h
      obtain ⟨t2, b⟩ := hd
      simp only [gapsLt, Bool.and_eq_true, decide_eq_true_eq] at h
      have h1 : t2 < t + D := h.1
      have h2 : gapsLt D ((t2, b) :: tl) = true := h.2
      have hle : ¬ (t + D ≤ t2) := Nat.not_le.mpr h1
      simp only [debounceExec, if_neg hle, lastCallAction]
      exact ih t2 b h2

/-- C3: for `N ≥ 1` calls to `Debouncer.Debounce` with strictly less than the
debounce delay `D` between consecutive calls, exactly one action executes —
the one submitted by the last call; every earlier pending action is cancelled
and never runs. -/
theorem debounce_single_execution (D t a : Nat) (rest : List (Nat × Nat))
    (h : gapsLt D ((t, a) :: rest) = true) :
    debounceRun D ((t, a) :: rest) = [lastCallAction a rest] :=
  debounceExec_pending_last D rest t a h

/-- Witness for `debounce_single_execution`: three calls at 0, 200 and 400 ms
with a 1500 ms delay execute only the third action. -/
theorem debounce_single_execution_witness :
    gapsLt 1500 ((0, 10) :: [(200, 20), (400, 30)]) = true ∧
    debounceRun 1500 ((0, 10) :: [(200, 20), (400, 30)]) =
      [lastCallAction 10 [(200, 20), (400, 30)]] :=
  ⟨by decide, debounce_single_execution 1500 0 10 [(200, 20), (400, 30)] (by decide)⟩

/-- C4 counterexample: with the configured exclude pattern `a/b/**`, the file
`a/b/c/d.go` lies under the directory `a/b`, which matches the pattern's
directory part, and the path matches the pattern under the spec's
arbitrary-depth `**` reading — yet `shouldIgnoreEvent` classifies the write
as relevant (not ignored), because `filepath.Match` compares the multi-segment
trimmed pattern against single directory components. -/
theorem C4_multisegment_dir_pattern_cex :
    filepathMatch (trimSuffix "a/b/**".data "/**".data) "a/b".data = true ∧
    "a/b/".data.isPrefixOf "a/b/c/d.go".data = true ∧
    specDoubleStarMatch "a/b/**".data "a/b/c/d.go".data = true ∧
    shouldIgnoreEvent ["a/b/**".data] defaultWatchPatterns writeOp
      "a/b/c/d.go".data = false := by decide

/-- C4 (amended): whenever any single parent-directory component of the
relative path matches an exclude pattern with a trailing `/**` trimmed off,
the event is classified as not relevant, regardless of the file's extension,
the change kind, or any include pattern it matches. -/
theorem dir_component_exclusion (ignorePatterns watchPatterns : List Str)
    (op : FsnotifyOp) (relPath pat dir : Str)
    (hp : pat ∈ ignorePatterns) (hd : dir ∈ dirComponents relPath)
    (hm : filepathMatch (trimSuffix pat "/**".data) dir = true) :
    shouldIgnoreEvent ignorePatterns watchPatterns op relPath = true := by
  unfold shouldIgnoreEvent
  split
  · rfl
  · have hany : ignorePatterns.any (fun pattern => ignoreMatches pattern relPath) = true := by
      refine List.any_eq_true.mpr ⟨pat, hp, ?_⟩
      have hdir : (dirComponents relPath).any
          (fun d => filepathMatch (trimSuffix pat "/**".data) d) = true :=
        List.any_eq_true.mpr ⟨dir, hd, hm⟩
      simp [ignoreMatches, hdir]
    simp [hany]

/-- Witness for `dir_component_exclusion`: a write to `vendor/a/b.go` is
ignored under the default patterns because the component `vendor` matches
`vendor/**` trimmed. -/
theorem dir_component_exclusion_witness :
    shouldIgnoreEvent defaultIgnorePatterns defaultWatchPatterns writeOp
      "vendor/a/b.go".data = true :=
  dir_component_exclusion defaultIgnorePatterns defaultWatchPatterns writeOp
    "vendor/a/b.go".data "vendor/**".data "vendor".data
    (by decide) (by decide) (by decide)

/-- C5 counterexample: `a/b/util_test.go` matches the default exclude pattern
`**/*_test.go` under the spec's arbitrary-depth `**` semantics, yet
`shouldIgnoreEvent` classifies the write as relevant: `filepath.Match` lets
each `*` span only one path segment, so the two-directory-deep test file
escapes the exclude and is accepted through the `.go` extension rule. -/
theorem C5_doublestar_depth_cex :
    "**/*_test.go".data ∈ defaultIgnorePatterns ∧
    specDoubleStarMatch "**/*_test.go".data "a/b/util_test.go".data = true ∧
    shouldIgnoreEvent defaultIgnorePatterns defaultWatchPatterns writeOp
      "a/b/util_test.go".data = false := by decide

/-- C5 (amended): exclude does take precedence over include, but under Go
`filepath.Match` semantics: any relative path that matches an exclude pattern
(where `*` and `**` alike match within a single path segment) is classified
as not relevant, whatever the watch patterns say. -/
theorem exclude_match_precedence (ignorePatterns watchPatterns : List Str)
    (op : FsnotifyOp) (relPath pat : Str)
    (hp : pat ∈ ignorePatterns)
    (hm : filepathMatch pat relPath = true) :
    shouldIgnoreEvent ignorePatterns watchPatterns op relPath = true := by
  unfold shouldIgnoreEvent
  split
  · rfl
  · have hany : ignorePatterns.any (fun pattern => ignoreMatches pattern relPath) = true := by
      refine List.any_eq_true.mpr ⟨pat, hp, ?_⟩
      simp [ignoreMatches, hm]
    simp [hany]

/-- Witness for `exclude_match_precedence`: `pkg/util_test.go` — one
directory deep — matches `**/*_test.go` via `filepath.Match` and is ignored
even though it also matches the `.go` include rule. -/
theorem exclude_match_precedence_witness :
    shouldIgnoreEvent defaultIgnorePatterns defaultWatchPatterns writeOp
      "pkg/util_test.go".data = true :=
  exclude_match_precedence defaultIgnorePatterns defaultWatchPatterns writeOp
    "pkg/util_test.go".data "**/*_test.go".data (by decide) (by decide)

/-- C6 counterexample: `.config.json` is a dotfile — an editor/temp artifact
by the spec's fixed convention — yet `shouldIgnoreEvent` classifies a write
to it as relevant: the filter has no artifact convention, and the name ends
in the watched extension `.json`. -/
theorem C6_artifact_convention_cex :
    editorArtifactName (baseName ".config.json".data) = true ∧
    shouldIgnoreEvent defaultIgnorePatterns defaultWatchPatterns writeOp
      ".config.json".data = false := by decide

/-- C6 (amended): editor/temp artifact names receive no special rejection —
they go through the ordinary ignore/watch pattern rules.  Artifacts whose
names end in a watched extension (dotfile `.config.json`, tilde file
`~backup.go`, hash file `foo#.go`) are classified relevant; an artifact
matching no watch pattern (`main.go.swp`) is ignored only by the default
deny. -/
theorem artifact_names_follow_patterns :
    editorArtifactName (baseName ".config.json".data) = true ∧
    shouldIgnoreEvent defaultIgnorePatterns defaultWatchPatterns writeOp
      ".config.json".data = false ∧
    editorArtifactName (baseName "~backup.go".data) = true ∧
    shouldIgnoreEvent defaultIgnorePatterns defaultWatchPatterns writeOp
      "~backup.go".data = false ∧
    editorArtifactName (baseName "foo#.go".data) = true ∧
    shouldIgnoreEvent defaultIgnorePatterns defaultWatchPatterns writeOp
      "foo#.go".data = false ∧
    editorArtifactName (baseName "main.go.swp".data) = true ∧
    shouldIgnoreEvent defaultIgnorePatterns defaultWatchPatterns writeOp
      "main.go.swp".data = true := by decide

/-- C7 counterexample: debounce 1500 ms, cool-down 2000 ms, restart duration
5000 ms, relevant events at 0 and 7000 ms.  The first restart runs from 1500
to 6500 ms.  The event at 7000 ms arrives within 2 s of that restart's
completion (7000 < 6500 + 2000), yet a second restart is scheduled and runs
at 8500 ms: the code measures the cool-down from the restart's start
(1500 ms), not its completion. -/
theorem C7_cooldown_from_completion_cex :
    watchRun 1500 2000 5000 [0, 7000] =
      ⟨8500, none, [(1500, 6500), (8500, 13500)]⟩ ∧
    (7000 : Int) < 6500 + 2000 := by decide

/-- C7 (amended): the cool-down is measured from the previous restart's
start.  With the same timings, an event 1500 ms after the restart's start
(at 3000 ms, while the restart is still running) is discarded, while an
event 5500 ms after the start (at 7000 ms, still within 2 s of the 6500 ms
completion) is debounced into a new restart. -/
theorem cooldown_measured_from_restart_start :
    watchRun 1500 2000 5000 [0, 3000] = ⟨1500, none, [(1500, 6500)]⟩ ∧
    (3000 : Int) - 1500 < 2000 ∧
    watchRun 1500 2000 5000 [0, 7000] =
      ⟨8500, none, [(1500, 6500), (8500, 13500)]⟩ ∧
    (2000 : Int) ≤ 7000 - 1500 := by decide

/-- C8 counterexample: with a restart action (id 7) pending in the debouncer,
`AdvancedWatcher.Stop` leaves the timer armed — `Stop` never touches the
debouncer — and the pending restart still runs after `Stop` returns. -/
theorem C8_stop_pending_cex :
    (awStop ⟨some 1, true, some 7⟩).pendingAction = some 7 ∧
    runsAfter (awStop ⟨some 1, true, some 7⟩) = [7] := by decide

/-- C8 (amended): `AdvancedWatcher.Stop` stops the process manager and closes
the file watcher but does not cancel a pending debounced action: the pending
action survives `Stop` unchanged and still runs afterwards. -/
theorem awStop_leaves_debounce_armed (s : AWState) :
    (awStop s).pmCmd = none ∧ (awStop s).watcherOpen = false ∧
    (awStop s).pendingAction = s.pendingAction ∧
    runsAfter (awStop s) = runsAfter s := by
  simp [awStop, runsAfter]

/-- C9: `ProcessManager.Stop` from `Idle` (no started command) is a no-op
returning `nil`, and a second `Stop` straight after is again a no-op — the
state, and in particular the signal log, is unchanged by both calls, so no
signal is delivered to any process. -/
theorem pmStop_idle_noop (s : PMState) (g1 w1 g2 w2 : Bool) (h : s.cmd = none) :
    pmStop s g1 w1 = (s, none) ∧
    pmStop (pmStop s g1 w1).1 g2 w2 = (s, none) ∧
    (pmStop s g1 w1).1.signals = s.signals := by
  have h1 : pmStop s g1 w1 = (s, none) := by
    unfold pmStop
    rw [h]
  refine ⟨h1, ?_, by rw [h1]⟩
  rw [h1]
  unfold pmStop
  rw [h]

/-- Witness for `pmStop_idle_noop` at the empty idle state. -/
theorem pmStop_idle_noop_witness :
    pmStop ⟨none, [], []⟩ true true = (⟨none, [], []⟩, none) ∧
    pmStop (pmStop ⟨none, [], []⟩ true true).1 false false =
      (⟨none, [], []⟩, none) ∧
    (pmStop ⟨none, [], []⟩ true true).1.signals =
      (⟨none, [], []⟩ : PMState).signals :=
  pmStop_idle_noop ⟨none, [], []⟩ true true false false rfl

/-- C10: `ProcessManager.Stop` returns `nil` in every state and under every
outcome of signal delivery and waiting — graceful exit, failed group signal
with direct fallback, or grace-period timeout followed by SIGKILL — so a
failure to reap the child is never surfaced as a stop error. -/
theorem pmStop_never_errors (s : PMState) (groupSignalOk gracefulWithin3s : Bool) :
    (pmStop s groupSignalOk gracefulWithin3s).2 = none := by
  unfold pmStop
  cases s.cmd with
  | none => rfl
  | some pid => rfl

end GoForge

